import Mathlib

/-!
Verification development for the Oxy air-quality repository.

Shallow embedding of:
 - `src/decision_engine.py` (risk classification),
 - `src/historical_analytics.py` (per-pollutant statistics and trend),
 - `src/history_analyzer.py` (city history aggregation).

Python floats are modelled by `ℚ` (every threshold constant in the source
is exactly representable and all comparisons are exact there); machine
`None` / unparseable values are modelled by the `Reading` type below.
-/

namespace Oxy

/-- `LEVEL_NAMES` from decision_engine.py line 29. -/
def LEVEL_NAMES : List String := ["Normal", "Moderate", "Unhealthy", "Hazardous"]

/-- Python list indexing `LEVEL_NAMES[n]`; indices used by the source are
always in range, the default is never reached. -/
def levelName (n : ℕ) : String := LEVEL_NAMES.getD n ""

/-- Python 3 `round` to an integer: round half to even (banker's rounding).
Models `int(round(a))` from decision_engine.py. -/
def pyRound (q : ℚ) : ℤ :=
  if q - ⌊q⌋ < 1/2 then ⌊q⌋
  else if 1/2 < q - ⌊q⌋ then ⌊q⌋ + 1
  else if ⌊q⌋ % 2 = 0 then ⌊q⌋ else ⌊q⌋ + 1

/-- One classifier input: Python `None` (`missing`), a value on which
`float(...)` raises (`invalid`, carrying its display text), or a numeric
value (`num`). -/
inductive Reading where
  | missing
  | invalid (txt : String)
  | num (q : ℚ)
deriving DecidableEq, Repr

/-- `_aqi_to_level` from decision_engine.py lines 32-78: `None` and
unparseable map to 0; a value ≤ 5 is an OpenWeather 1-5 category
(rounded to the nearest integer), a value > 5 a classical numeric index. -/
def _aqi_to_level : Reading → ℕ
  | Reading.missing => 0
  | Reading.invalid _ => 0
  | Reading.num a =>
    if a ≤ 5 then
      let cat := pyRound a
      if cat ≤ 1 then 0
      else if cat = 2 then 1
      else if cat = 3 then 2
      else if cat = 4 then 2
      else 3
    else
      if a ≤ 50 then 0
      else if a ≤ 100 then 1
      else if a ≤ 200 then 2
      else 3

/-- `_pm25_to_level` from decision_engine.py lines 81-102. -/
def _pm25_to_level : Reading → ℕ
  | Reading.missing => 0
  | Reading.invalid _ => 0
  | Reading.num p =>
    if p ≤ 12 then 0
    else if p ≤ 35.4 then 1
    else if p ≤ 55.4 then 2
    else 3

/-- Stand-in for Python's float/str display of a numeric value inside
f-strings (decision_engine.py line 122). No verified property depends on
its exact output. -/
def ratRepr (q : ℚ) : String := toString q

/-- `_reason_strings` from decision_engine.py lines 105-125. Note that in
the source only the AQI branch distinguishes an unparseable value
("AQI=invalid"); an unparseable PM2.5 value is rendered with its raw text
and its (Normal) level, with no "invalid" marker. -/
def _reason_strings (aqi pm25 : Reading) : List String :=
  let aqiPart : String :=
    match aqi with
    | Reading.missing => "AQI=missing"
    | Reading.invalid _ => "AQI=invalid"
    | Reading.num a =>
      if a ≤ 5 then
        "AQI(category)=" ++ toString (pyRound a) ++ " (" ++ levelName (_aqi_to_level (Reading.num a)) ++ ")"
      else
        "AQI(index)=" ++ toString (pyRound a) ++ " (" ++ levelName (_aqi_to_level (Reading.num a)) ++ ")"
  let pmPart : String :=
    match pm25 with
    | Reading.missing => "PM2.5=missing"
    | Reading.invalid txt =>
      "PM2.5=" ++ txt ++ " µg/m3 (" ++ levelName (_pm25_to_level (Reading.invalid txt)) ++ ")"
    | Reading.num p =>
      "PM2.5=" ++ ratRepr p ++ " µg/m3 (" ++ levelName (_pm25_to_level (Reading.num p)) ++ ")"
  [aqiPart, pmPart]

/-- The level-2 base recommendation about masks (decision_engine.py line 146),
also consulted by the PM2.5 refinement branch (line 190). -/
def maskBaseText : String :=
  "Consider using an N95/FFP2 mask when outdoors in crowded or polluted areas."

/-- The level-2 base recommendation about action plans (line 145), also
consulted by the AQI refinement branch (line 196). -/
def respText : String :=
  "People with respiratory or cardiovascular conditions should follow their action plans and limit outdoor time."

/-- PM2.5 refinement appended when the mask base text is absent (line 191). -/
def altMaskText : String :=
  "Use an N95/FFP2 mask when you must go outside; cloth masks offer limited PM2.5 protection."

/-- PM2.5 refinement appended unconditionally in the PM2.5 branch (line 192). -/
def roadsText : String :=
  "Avoid activities near busy roads, construction, or open burning."

/-- AQI refinement appended when the action-plan base text is absent (line 197). -/
def medText : String :=
  "Follow medical action plans if you have asthma or heart disease; keep rescue meds at hand."

/-- `_base_recommendations` from decision_engine.py lines 128-153. -/
def _base_recommendations (level : ℕ) : List String :=
  if level = 0 then
    ["Outdoor activities are safe for most people.",
     "No special precautions needed for healthy individuals.",
     "Vulnerable groups may still follow usual care (asthma meds)."]
  else if level = 1 then
    ["Unusually sensitive people should consider reducing prolonged or heavy exertion outdoors.",
     "Keep windows closed during heavy traffic or dust events.",
     "Consider indoor light activity instead of vigorous outdoor exercise."]
  else if level = 2 then
    ["Avoid vigorous outdoor exercise; prefer indoor exercise with good filtration.",
     respText,
     maskBaseText]
  else
    ["Stay indoors and keep windows and doors closed where possible.",
     "Use indoor air cleaners (HEPA) or portable filters if available.",
     "Vulnerable people (children, elderly, pregnant, chronic disease) should avoid all outdoor exertion."]

/-- The dedup-and-cap loop of decision_engine.py lines 200-207: keep the
first occurrence of each string, stop as soon as 6 items are kept. -/
def dedupCap (acc : List String) : List String → List String
  | [] => acc
  | r :: rest =>
    let acc2 := if r ∈ acc then acc else acc ++ [r]
    if 6 ≤ acc2.length then acc2 else dedupCap acc2 rest

/-- The recommendation pipeline of `interpret` (decision_engine.py lines
182-207) as a function of the two sub-levels, which are the only inputs it
reads. -/
def recsFun (aqi_level pm25_level : ℕ) : List String :=
  let level := max aqi_level pm25_level
  let recs0 := _base_recommendations level
  let recs1 :=
    if 2 ≤ pm25_level then
      (if maskBaseText ∈ recs0 then recs0 else recs0 ++ [altMaskText]) ++ [roadsText]
    else recs0
  let recs2 :=
    if 2 ≤ aqi_level then
      (if respText ∈ recs1 then recs1 else recs1 ++ [medText])
    else recs1
  dedupCap [] recs2

/-- The dictionary returned by `interpret` (decision_engine.py lines 214-226).
`city` and `timestamp` are `none` when the argument was absent or falsy
(the source attaches them only when truthy). -/
structure InterpretResult where
  risk_level : String
  score : ℕ
  reasons : List String
  recommendations : List String
  explanation : String
  city : Option String
  timestamp : Option String
deriving DecidableEq, Repr

/-- `interpret` from decision_engine.py lines 156-228. -/
def interpret (aqi pm25 : Reading) (timestamp city : Option String) : InterpretResult :=
  let aqi_level := _aqi_to_level aqi
  let pm25_level := _pm25_to_level pm25
  let level := max aqi_level pm25_level
  let reasons := _reason_strings aqi pm25
  let deduped := recsFun aqi_level pm25_level
  let explanation :=
    "Air quality assessed as " ++ levelName level ++
      " based on AQI and PM2.5. Higher pollutant determines the risk level; see reasons."
  { risk_level := levelName level
    score := level
    reasons := reasons
    recommendations := deduped
    explanation := explanation
    city := match city with
      | some c => if c = "" then none else some c
      | none => none
    timestamp := match timestamp with
      | some t => if t = "" then none else some t
      | none => none }

/-!
## historical_analytics.py

A pandas series that has been through `pd.to_numeric(..., errors="coerce")`
is modelled as `List (Option ℚ)`: `none` is a missing or non-coercible cell
(NaN), `some q` a numeric cell. The list order is the original sequence
order of the series.
-/

/-- `series.min()` (pandas skips missing values; `none` on an all-missing
series). -/
def listMin : List ℚ → Option ℚ
  | [] => none
  | x :: xs => some (xs.foldl min x)

/-- `series.max()` (pandas skips missing values). -/
def listMax : List ℚ → Option ℚ
  | [] => none
  | x :: xs => some (xs.foldl max x)

/-- Insert into a sorted list (helper for the median). -/
def insertSorted (x : ℚ) : List ℚ → List ℚ
  | [] => [x]
  | y :: ys => if x ≤ y then x :: y :: ys else y :: insertSorted x ys

/-- Sort ascending (helper for the median). -/
def sortQ (l : List ℚ) : List ℚ := l.foldr insertSorted []

/-- `series.median()` over the non-missing values: middle element of the
sorted values, or the average of the two middle elements. -/
def pyMedian (l : List ℚ) : ℚ :=
  let s := sortQ l
  let n := s.length
  if n % 2 = 1 then s.getD (n / 2) 0
  else (s.getD (n / 2 - 1) 0 + s.getD (n / 2) 0) / 2

/-- `series.mean()` over the non-missing values (sum / count). -/
def listMean (l : List ℚ) : ℚ := l.sum / (l.length : ℚ)

/-- Whether a cell is strictly above a threshold; a missing cell (NaN)
compares `False` in pandas, exactly as here. -/
def cellAbove (th : ℚ) : Option ℚ → Bool
  | none => false
  | some q => decide (th < q)

/-- `_safe_count` from historical_analytics.py lines 43-46: percentage of
entries strictly above `safe_threshold`, with the **full** series length
(missing cells included) as denominator; `0.0` if every cell is missing. -/
def _safe_count (series : List (Option ℚ)) (safe_threshold : ℚ) : ℚ :=
  if series.filterMap id = [] then 0
  else ((series.countP (cellAbove safe_threshold)) : ℚ) / (series.length : ℚ) * 100

/-- The rising-edge count of a boolean sequence, where `prev` is the value
shifted in for the previous position (`shift(1, fill_value=False)` starts
at `False`). -/
def countRisingEdges (prev : Bool) : List Bool → ℕ
  | [] => 0
  | b :: rest => (if b && !prev then 1 else 0) + countRisingEdges b rest

/-- `series.fillna(-math.inf)` from historical_analytics.py line 51:
missing cells become `⊥` (negative infinity) in `WithBot ℚ`. -/
def fillNegInf (series : List (Option ℚ)) : List (WithBot ℚ) :=
  series.map fun o => match o with
    | some q => (q : WithBot ℚ)
    | none => (⊥ : WithBot ℚ)

/-- `_count_hazard_entries` from historical_analytics.py lines 49-55:
fill missing with −infinity, threshold, and count rising edges with the
shifted-in previous value `False`. -/
def _count_hazard_entries (series : List (Option ℚ)) (hazard_threshold : ℚ) : ℕ :=
  let filled := fillNegInf series
  let above := filled.map fun x => decide ((hazard_threshold : WithBot ℚ) < x)
  countRisingEdges false above

/-- `_detect_trend` from historical_analytics.py lines 58-91. The
`pd.isna(mean)` guard of line 81 cannot fire in this model: the mean of a
nonempty list of rationals is a rational. -/
def _detect_trend (series : List (Option ℚ)) : String :=
  let vals := series.filterMap id
  let n := vals.length
  if n < 6 then "no_change"
  else
    let third := max 1 (n / 3)
    let first := vals.take third
    let last := vals.drop (n - third)
    let mean_first := listMean first
    let mean_last := listMean last
    let rel_change := if mean_first ≠ 0 then (mean_last - mean_first) / |mean_first| else 0
    if 10 ≤ n ∧ (0.05 : ℚ) ≤ rel_change then "worsening"
    else if 10 ≤ n ∧ rel_change ≤ (-0.05 : ℚ) then "improving"
    else "no_change"

/-- The dictionary returned by `analyze_pollutant` (historical_analytics.py
lines 104-113). `trend` is `Option String` because the source initialises
it to `None` and only sometimes replaces it with a label. -/
structure PollutantSummary where
  n_measurements : ℕ
  min : Option ℚ
  max : Option ℚ
  mean : Option ℚ
  median : Option ℚ
  percent_above_safe : Option ℚ
  hazard_entries : Option ℕ
  trend : Option String
deriving DecidableEq, Repr

/-- `analyze_pollutant` from historical_analytics.py lines 94-135. The
input is the already-coerced series; `safe` / `hazard` are `none` when the
threshold is absent or NaN (the source's `is None` / `isnan` guard). -/
def analyze_pollutant (series : List (Option ℚ)) (safe hazard : Option ℚ) :
    PollutantSummary :=
  let vals := series.filterMap id
  let n := vals.length
  if n = 0 then
    { n_measurements := 0, min := none, max := none, mean := none, median := none
      percent_above_safe := none, hazard_entries := none, trend := none }
  else
    { n_measurements := n
      min := listMin vals
      max := listMax vals
      mean := some (listMean vals)
      median := some (pyMedian vals)
      percent_above_safe := safe.map fun th => _safe_count series th
      hazard_entries := hazard.map fun th => _count_hazard_entries series th
      trend := some (_detect_trend series) }

/-!
## history_analyzer.py

One CSV row for the chosen city. `timestamp` is the value after
`pd.to_datetime(..., errors="coerce")`, modelled as a rational time
coordinate measured in days (`none` = NaT); `aqi` / `pm2_5` are the
numeric cells (`none` = missing/NaN cell). The source renders timestamps
as ISO strings in its output; this model keeps the time coordinate, which
carries the same ordering and nullness information.
-/

structure Row where
  timestamp : Option ℚ
  aqi : Option ℚ
  pm2_5 : Option ℚ
deriving DecidableEq, Repr

/-- How a CSV cell reaches `interpret`: a present cell is a numeric
reading, a missing cell is `None`-like for the level functions. (In the
source a missing cell is a float NaN; such rows are only classified when
the other reading is present, and no verified property concerns that
path.) -/
def toReading : Option ℚ → Reading
  | some q => Reading.num q
  | none => Reading.missing

/-- The drop mask of history_analyzer.py line 46:
`timestamp.isna() | (aqi.isna() & pm2_5.isna())`. -/
def mask_missing (r : Row) : Bool :=
  r.timestamp.isNone || (r.aqi.isNone && r.pm2_5.isNone)

/-- The driver attribution of history_analyzer.py lines 64-71 and 122-129. -/
def driverOf (r : Row) : String :=
  let a_level := _aqi_to_level (toReading r.aqi)
  let p_level := _pm25_to_level (toReading r.pm2_5)
  if p_level < a_level then "AQI"
  else if a_level < p_level then "PM2.5"
  else "Both"

/-- The `worst_entry` structure of history_analyzer.py lines 131-136. -/
structure WorstEntry where
  timestamp : Option ℚ
  risk_level : String
  reasons : List String
  determined_by : String
deriving DecidableEq, Repr

/-- The candidate scan of history_analyzer.py lines 101-110: among the
entries of maximal score, keep the first one seen with a strictly smaller
timestamp than the current choice. -/
def pickWorst (entries : List (ℚ × Row × InterpretResult)) :
    Option (ℚ × Row × InterpretResult) :=
  match entries with
  | [] => none
  | _ =>
    let maxScore := entries.foldl (fun m e => max m e.2.2.score) 0
    let candidates := entries.filter fun e => e.2.2.score = maxScore
    candidates.foldl
      (fun chosen c =>
        match chosen with
        | none => some c
        | some b => if c.1 < b.1 then some c else chosen)
      none

/-- Stand-in for Python's `"{:.1f}"` format (round half to even at one
decimal). No verified property depends on its exact output. -/
def fmtPct (q : ℚ) : String :=
  let t := pyRound (q * 10)
  toString (t / 10) ++ "." ++ toString (t % 10)

/-- Stand-in for `str(ts)` / `.isoformat()` on a timestamp. No verified
property depends on its exact output. -/
def tsRepr (t : ℚ) : String := toString t

/-- The slice of the dictionary returned by `analyze_city_from_csv`
(history_analyzer.py lines 197-212) that the verified properties read.
(`distribution`, the driver table and the top-bad-day lists are built from
the same retained rows and are not consulted by any claim.) -/
structure CitySummary where
  city : String
  total_measurements : ℕ
  dropped_rows : ℕ
  period_start : Option ℚ
  period_end : Option ℚ
  moderate_or_worse_share_pct : ℚ
  unhealthy_or_worse_share_pct : ℚ
  worst_moment : Option WorstEntry
  summary : String
deriving DecidableEq, Repr

/-- Count of retained observations whose risk label is in `BAD_LEVELS` /
`MODERATE_OR_WORSE_LEVELS` (history_analyzer.py lines 82-86), expressed
through the ordinal score. -/
def shareCount (lo : ℕ) (interps : List InterpretResult) : ℕ :=
  interps.countP fun i => lo ≤ i.score

/-- Driver tally over `("AQI", "PM2.5", "Both")` in the source's fixed key
order; `max` with Python semantics returns the first key of maximal count
(history_analyzer.py lines 88-92 and 187). -/
def topDriver (drivers : List String) : String × ℕ :=
  let cAqi := drivers.countP (fun d => d = "AQI")
  let cPm := drivers.countP (fun d => d = "PM2.5")
  let cBoth := drivers.countP (fun d => d = "Both")
  if cPm ≤ cAqi ∧ cBoth ≤ cAqi then ("AQI", cAqi)
  else if cBoth ≤ cPm then ("PM2.5", cPm)
  else ("Both", cBoth)

/-- `aggregate` over one city's rows: the portion of
`analyze_city_from_csv` (history_analyzer.py lines 44-219) after the CSV
read and city filter, for the output fields modelled by `CitySummary`.
The JSON dump at lines 214-217 is external I/O and is not modelled. -/
def analyze_city_rows (city : String) (rows : List Row) : CitySummary :=
  let dropped_rows := (rows.filter mask_missing).length
  let df_city := rows.filter fun r => !mask_missing r
  let total_measurements := df_city.length
  let withInterp : List (Row × InterpretResult) :=
    df_city.map fun r =>
      (r, interpret (toReading r.aqi) (toReading r.pm2_5)
            (r.timestamp.map tsRepr) (some city))
  let interps := withInterp.map Prod.snd
  let drivers := df_city.map driverOf
  let unhealthy_share : ℚ :=
    if 0 < total_measurements then
      (shareCount 2 interps : ℚ) / (total_measurements : ℚ) * 100
    else 0
  let moderate_share : ℚ :=
    if 0 < total_measurements then
      (shareCount 1 interps : ℚ) / (total_measurements : ℚ) * 100
    else 0
  let timestamps := df_city.filterMap Row.timestamp
  let period_start := if 0 < total_measurements then listMin timestamps else none
  let period_end := if 0 < total_measurements then listMax timestamps else none
  let worst_moment : Option WorstEntry :=
    (pickWorst (withInterp.map fun p => (p.1.timestamp.getD 0, p))).map
      fun chosen =>
        { timestamp := chosen.2.1.timestamp
          risk_level := chosen.2.2.risk_level
          reasons := chosen.2.2.reasons
          determined_by := driverOf chosen.2.1 }
  let summary :=
    if total_measurements = 0 then
      "No valid measurements for " ++ city ++ " in the provided file."
    else
      let days_span : Option ℤ :=
        match period_start, period_end with
        | some ps, some pe => some (⌊pe - ps⌋ + 1)
        | _, _ => none
      let span_text :=
        match days_span with
        | some d => if 0 < d then "the last " ++ toString d ++ " days" else "the analysed period"
        | none => "the analysed period"
      let head :=
        "Over " ++ span_text ++ ", Moderate or worse occurred " ++ fmtPct moderate_share ++
          "% of the time; Unhealthy or worse occurred " ++ fmtPct unhealthy_share ++ "%."
      let head2 :=
        match worst_moment with
        | some w =>
          head ++ " The worst recorded moment was on " ++
            (match w.timestamp with | some t => tsRepr t | none => "None") ++
            " (" ++ w.risk_level ++ ")."
        | none => head ++ " No single worst moment identified."
      let top := topDriver drivers
      let top_pct : ℚ :=
        if 0 < total_measurements then (top.2 : ℚ) / (total_measurements : ℚ) * 100 else 0
      let driver_text :=
        if top.1 = "AQI" then "AQI category (" ++ fmtPct top_pct ++ "%)"
        else if top.1 = "PM2.5" then "PM2.5 (" ++ fmtPct top_pct ++ "%)"
        else "both AQI and PM2.5 equally (" ++ fmtPct top_pct ++ "%)"
      head2 ++ " The risk level was most often driven by " ++ driver_text ++ "."
  { city := city
    total_measurements := total_measurements
    dropped_rows := dropped_rows
    period_start := period_start
    period_end := period_end
    moderate_or_worse_share_pct := moderate_share
    unhealthy_or_worse_share_pct := unhealthy_share
    worst_moment := worst_moment
    summary := summary }

/-- Whether the first character list leads the second one. -/
def charsLead : List Char → List Char → Bool
  | [], _ => true
  | _ :: _, [] => false
  | a :: as, b :: bs => a == b && charsLead as bs

/-- Whether `needle` occurs contiguously somewhere in `hay`. -/
def containsSubAux (needle : List Char) : List Char → Bool
  | [] => charsLead needle []
  | c :: cs => charsLead needle (c :: cs) || containsSubAux needle cs

/-- Substring test on strings (used to check for markers in reason text). -/
def containsSub (needle hay : String) : Bool := containsSubAux needle.data hay.data

/-!
## Helper lemmas
-/

theorem aqi_level_le_three (a : Reading) : _aqi_to_level a ≤ 3 := by
  cases a with
  | missing => simp [_aqi_to_level]
  | invalid t => simp [_aqi_to_level]
  | num q =>
    simp only [_aqi_to_level]
    split_ifs <;> omega

theorem pm25_level_le_three (p : Reading) : _pm25_to_level p ≤ 3 := by
  cases p with
  | missing => simp [_pm25_to_level]
  | invalid t => simp [_pm25_to_level]
  | num q =>
    simp only [_pm25_to_level]
    split_ifs <;> omega

/-!
## Claim theorems
-/

/-- C1: `interpret` returns `score = max(primary sub-level, particulate
sub-level)` for every pair of inputs (absent and non-numeric included),
each sub-level lies in {0,1,2,3}, `risk_level` is the label of the score
under Normal=0, Moderate=1, Unhealthy=2, Hazardous=3, and changing only
the non-dominant input never changes the overall level while its
sub-level stays below-or-equal the dominant one. -/
theorem c1_combination_rule (a p : Reading) :
    (interpret a p none none).score = max (_aqi_to_level a) (_pm25_to_level p)
  ∧ _aqi_to_level a ≤ 3 ∧ _pm25_to_level p ≤ 3
  ∧ (interpret a p none none).risk_level
      = ["Normal", "Moderate", "Unhealthy", "Hazardous"].getD ((interpret a p none none).score) ""
  ∧ (∀ p2 : Reading, _pm25_to_level p ≤ _aqi_to_level a → _pm25_to_level p2 ≤ _aqi_to_level a →
       (interpret a p2 none none).score = (interpret a p none none).score)
  ∧ (∀ a2 : Reading, _aqi_to_level a ≤ _pm25_to_level p → _aqi_to_level a2 ≤ _pm25_to_level p →
       (interpret a2 p none none).score = (interpret a p none none).score) := by
  refine ⟨rfl, aqi_level_le_three a, pm25_level_le_three p, rfl, ?_, ?_⟩
  · intro p2 h1 h2
    show max (_aqi_to_level a) (_pm25_to_level p2) = max (_aqi_to_level a) (_pm25_to_level p)
    rw [Nat.max_eq_left h2, Nat.max_eq_left h1]
  · intro a2 h1 h2
    show max (_aqi_to_level a2) (_pm25_to_level p) = max (_aqi_to_level a) (_pm25_to_level p)
    rw [Nat.max_eq_right h2, Nat.max_eq_right h1]

/-- Witness for C1 at concrete inputs: with AQI index 120 (sub-level 2)
dominant, replacing PM2.5 30 (sub-level 1) by PM2.5 8 (sub-level 0) keeps
the overall score. -/
theorem c1_combination_rule_witness :
    (interpret (Reading.num 120) (Reading.num 8) none none).score
      = (interpret (Reading.num 120) (Reading.num 30) none none).score
  ∧ (interpret (Reading.num 120) (Reading.num 30) none none).score
      = max (_aqi_to_level (Reading.num 120)) (_pm25_to_level (Reading.num 30)) := by
  have h := c1_combination_rule (Reading.num 120) (Reading.num 30)
  exact ⟨h.2.2.2.2.1 (Reading.num 8)
          (by norm_num [_pm25_to_level, _aqi_to_level, pyRound])
          (by norm_num [_pm25_to_level, _aqi_to_level, pyRound]), h.1⟩

/-- C2: the sub-level mappings realise the documented breakpoints: a
primary reading ≤ 5 is a 1-5 category (1→0, 2→1, 3→2, 4→2, 5→3), a
reading > 5 a numeric index (≤50→0, ≤100→1, ≤200→2, >200→3, so 120→2,
200→2, 201→3), and the particulate mapping is ≤12→0, ≤35.4→1, ≤55.4→2,
>55.4→3 (so 55.4→2, 55.41→3). -/
theorem c2_breakpoints :
    (_aqi_to_level (Reading.num 1) = 0 ∧ _aqi_to_level (Reading.num 2) = 1
      ∧ _aqi_to_level (Reading.num 3) = 2 ∧ _aqi_to_level (Reading.num 4) = 2
      ∧ _aqi_to_level (Reading.num 5) = 3)
  ∧ (∀ q : ℚ, 5 < q →
       ((q ≤ 50 → _aqi_to_level (Reading.num q) = 0)
      ∧ (50 < q → q ≤ 100 → _aqi_to_level (Reading.num q) = 1)
      ∧ (100 < q → q ≤ 200 → _aqi_to_level (Reading.num q) = 2)
      ∧ (200 < q → _aqi_to_level (Reading.num q) = 3)))
  ∧ (_aqi_to_level (Reading.num 120) = 2 ∧ _aqi_to_level (Reading.num 200) = 2
      ∧ _aqi_to_level (Reading.num 201) = 3)
  ∧ (∀ q : ℚ,
       ((q ≤ 12 → _pm25_to_level (Reading.num q) = 0)
      ∧ (12 < q → q ≤ 35.4 → _pm25_to_level (Reading.num q) = 1)
      ∧ ((35.4 : ℚ) < q → q ≤ 55.4 → _pm25_to_level (Reading.num q) = 2)
      ∧ ((55.4 : ℚ) < q → _pm25_to_level (Reading.num q) = 3)))
  ∧ (_pm25_to_level (Reading.num (55.4 : ℚ)) = 2
      ∧ _pm25_to_level (Reading.num (55.41 : ℚ)) = 3) := by
  refine ⟨⟨by norm_num [_aqi_to_level, pyRound], by norm_num [_aqi_to_level, pyRound],
            by norm_num [_aqi_to_level, pyRound], by norm_num [_aqi_to_level, pyRound],
            by norm_num [_aqi_to_level, pyRound]⟩, ?_,
          ⟨by norm_num [_aqi_to_level, pyRound], by norm_num [_aqi_to_level, pyRound],
            by norm_num [_aqi_to_level, pyRound]⟩, ?_,
          ⟨by norm_num [_pm25_to_level], by norm_num [_pm25_to_level]⟩⟩
  · intro q hq
    refine ⟨?_, ?_, ?_, ?_⟩ <;>
      · intros
        simp only [_aqi_to_level]
        split_ifs <;> first | rfl | linarith
  · intro q
    refine ⟨?_, ?_, ?_, ?_⟩ <;>
      · intros
        simp only [_pm25_to_level]
        split_ifs <;> first | rfl | linarith

/-- Witness for C2 at concrete inputs: index 120 maps to level 2 and
particulate 55.41 to level 3, obtained from the quantified clauses. -/
theorem c2_breakpoints_witness :
    _aqi_to_level (Reading.num 120) = 2
  ∧ _pm25_to_level (Reading.num (55.41 : ℚ)) = 3 := by
  have h := c2_breakpoints
  exact ⟨(h.2.1 120 (by norm_num)).2.2.1 (by norm_num) (by norm_num),
         (h.2.2.2.1 (55.41 : ℚ)).2.2.2 (by norm_num)⟩

theorem length_filter_add_length_filter_not {α : Type} (p : α → Bool) (l : List α) :
    (l.filter fun x => !p x).length + (l.filter p).length = l.length := by
  induction l with
  | nil => rfl
  | cons x xs ih =>
    by_cases hx : p x <;> simp [List.filter, hx] <;> omega

theorem not_mask_missing (r : Row) :
    (!mask_missing r) = (r.timestamp.isSome && (r.aqi.isSome || r.pm2_5.isSome)) := by
  rcases r with ⟨ts, aq, pm⟩
  cases ts <;> cases aq <;> cases pm <;> rfl

/-- C3 counterexample: a row with no parseable timestamp but a usable
primary reading (so, per the claim, a row that should be retained) is in
fact dropped by the aggregator — the source mask drops every row whose
timestamp is unparseable. -/
theorem c3_counterexample :
    (analyze_city_rows ("X") [{ timestamp := none, aqi := some 100, pm2_5 := none }]).dropped_rows = 1
  ∧ (analyze_city_rows ("X") [{ timestamp := none, aqi := some 100, pm2_5 := none }]).total_measurements = 0
  ∧ ({ timestamp := none, aqi := some 100, pm2_5 := none } : Row).aqi.isSome = true := by
  exact ⟨rfl, rfl, rfl⟩

/-- C3 (amended): the aggregator retains a row if and only if it has a
parseable timestamp AND at least one of the two classifier inputs; rows
with no parseable timestamp, or with neither pollutant reading, are
dropped, and the dropped count is recorded in the output (retained and
dropped counts partition the input). -/
theorem c3_retention_amended (city : String) (rows : List Row) :
    (analyze_city_rows city rows).dropped_rows
      = (rows.filter fun r => r.timestamp.isNone || (r.aqi.isNone && r.pm2_5.isNone)).length
  ∧ (analyze_city_rows city rows).total_measurements
      = (rows.filter fun r => r.timestamp.isSome && (r.aqi.isSome || r.pm2_5.isSome)).length
  ∧ (analyze_city_rows city rows).total_measurements + (analyze_city_rows city rows).dropped_rows
      = rows.length := by
  refine ⟨rfl, ?_, ?_⟩
  · show (rows.filter fun r => !mask_missing r).length = _
    rw [List.filter_congr fun r _ => not_mask_missing r]
  · show (rows.filter fun r => !mask_missing r).length + (rows.filter mask_missing).length
        = rows.length
    exact length_filter_add_length_filter_not mask_missing rows

/-- C4 counterexample: for a non-numeric particulate reading the reasons
list does not record "invalid" — the particulate reason echoes the raw
text with the Normal label, only the primary-index branch ever emits an
"invalid" marker. -/
theorem c4_counterexample :
    (interpret Reading.missing (Reading.invalid "abc") none none).reasons
        = ["AQI=missing", "PM2.5=abc µg/m3 (Normal)"]
  ∧ containsSub ("invalid") ("PM2.5=abc µg/m3 (Normal)") = false
  ∧ _pm25_to_level (Reading.invalid "abc") = 0 := by
  exact ⟨rfl, by decide, rfl⟩

/-- C4 (amended): `interpret` never fails; a missing reading degrades that
sub-level to Normal and yields a "missing" reason, and a non-numeric
primary reading degrades to Normal and yields "AQI=invalid"; a non-numeric
particulate reading also degrades to Normal, but its reason echoes the raw
text with the Normal label instead of an "invalid" marker. -/
theorem c4_reasons_amended (a p : Reading) :
    (interpret a p none none).reasons.length = 2
  ∧ (a = Reading.missing →
       _aqi_to_level a = 0 ∧ (interpret a p none none).reasons.getD 0 "" = "AQI=missing")
  ∧ (∀ s, a = Reading.invalid s →
       _aqi_to_level a = 0 ∧ (interpret a p none none).reasons.getD 0 "" = "AQI=invalid")
  ∧ (p = Reading.missing →
       _pm25_to_level p = 0 ∧ (interpret a p none none).reasons.getD 1 "" = "PM2.5=missing")
  ∧ (∀ s, p = Reading.invalid s →
       _pm25_to_level p = 0
     ∧ (interpret a p none none).reasons.getD 1 ""
         = "PM2.5=" ++ s ++ " µg/m3 (" ++ "Normal" ++ ")") := by
  refine ⟨rfl, ?_, ?_, ?_, ?_⟩
  · intro h; subst h; exact ⟨rfl, rfl⟩
  · intro s h; subst h; exact ⟨rfl, rfl⟩
  · intro h; subst h; exact ⟨rfl, rfl⟩
  · intro s h; subst h; exact ⟨rfl, rfl⟩

/-- Witness for C4 (amended) at concrete inputs, one per taxonomy case. -/
theorem c4_reasons_amended_witness :
    ((interpret Reading.missing (Reading.invalid "abc") none none).reasons.getD 0 ""
        = "AQI=missing"
      ∧ (interpret Reading.missing (Reading.invalid "abc") none none).reasons.getD 1 ""
        = "PM2.5=" ++ "abc" ++ " µg/m3 (" ++ "Normal" ++ ")")
  ∧ ((interpret (Reading.invalid "x") Reading.missing none none).reasons.getD 0 ""
        = "AQI=invalid"
      ∧ (interpret (Reading.invalid "x") Reading.missing none none).reasons.getD 1 ""
        = "PM2.5=missing") := by
  refine ⟨⟨?_, ?_⟩, ⟨?_, ?_⟩⟩
  · exact ((c4_reasons_amended Reading.missing (Reading.invalid "abc")).2.1 rfl).2
  · exact (((c4_reasons_amended Reading.missing (Reading.invalid "abc")).2.2.2.2 "abc") rfl).2
  · exact (((c4_reasons_amended (Reading.invalid "x") Reading.missing).2.2.1 "x") rfl).2
  · exact ((c4_reasons_amended (Reading.invalid "x") Reading.missing).2.2.2.1 rfl).2

/-- C5 counterexample: on a series whose coercible count is 0 the summary
has `trend` absent (`None`), not the label `no_change` the claim states. -/
theorem c5_counterexample :
    (analyze_pollutant [none] (some 50) (some 200)).trend = none
  ∧ (analyze_pollutant [none] (some 50) (some 200)).trend ≠ some ("no_change")
  ∧ (analyze_pollutant [none] (some 50) (some 200)).n_measurements = 0
  ∧ (analyze_pollutant [none] (some 50) (some 200)).min = none := by
  exact ⟨rfl, by decide, rfl, rfl⟩

/-- C5 (amended): when the coercible count is 0 every field of the summary
— min, max, mean, median, percent_above_safe, hazard_entries AND trend —
is absent (`None`). -/
theorem c5_empty_summary_amended (series : List (Option ℚ)) (safe hazard : Option ℚ)
    (h : (series.filterMap id).length = 0) :
    analyze_pollutant series safe hazard =
      { n_measurements := 0, min := none, max := none, mean := none, median := none
        percent_above_safe := none, hazard_entries := none, trend := none } := by
  simp only [analyze_pollutant, h, if_pos]

/-- Witness for C5 (amended) on the all-missing series `[none, none]`. -/
theorem c5_empty_summary_amended_witness :
    analyze_pollutant [none, none] (some 50) (some 200) =
      { n_measurements := 0, min := none, max := none, mean := none, median := none
        percent_above_safe := none, hazard_entries := none, trend := none } :=
  c5_empty_summary_amended [none, none] (some 50) (some 200) rfl

/-- C6: the tercile trend algorithm — drop missing entries; under 6
remaining values the trend is `no_change`; otherwise with terciles of size
`max 1 (n / 3)` taken at the two ends in sequence order and relative
change `(mean_last - mean_first) / |mean_first|` (0 when `mean_first = 0`),
the verdict is `worsening` iff `n ≥ 10` and the relative change is ≥ 0.05,
`improving` iff `n ≥ 10` and it is ≤ −0.05, and `no_change` otherwise. -/
theorem c6_trend_tercile (series : List (Option ℚ)) :
    ((series.filterMap id).length < 6 → _detect_trend series = "no_change")
  ∧ (∀ (n third : ℕ) (mf ml rel : ℚ),
      n = (series.filterMap id).length →
      6 ≤ n →
      third = max 1 (n / 3) →
      mf = ((series.filterMap id).take third).sum / (third : ℚ) →
      ml = ((series.filterMap id).drop (n - third)).sum / (third : ℚ) →
      rel = (if mf = 0 then 0 else (ml - mf) / |mf|) →
      ((_detect_trend series = "worsening" ↔ (10 ≤ n ∧ (0.05 : ℚ) ≤ rel))
     ∧ (_detect_trend series = "improving" ↔ (10 ≤ n ∧ rel ≤ (-0.05 : ℚ)))
     ∧ (_detect_trend series = "no_change" ↔
          (¬(10 ≤ n ∧ (0.05 : ℚ) ≤ rel) ∧ ¬(10 ≤ n ∧ rel ≤ (-0.05 : ℚ)))))) := by
  constructor
  · intro h
    simp only [_detect_trend, if_pos h]
  · intro n third mf ml rel hn h6 hthird hmf hml hrel
    subst hrel
    subst hmf
    subst hml
    subst hthird
    subst hn
    have hnotlt : ¬ ((series.filterMap id).length < 6) := by omega
    have hthird_le : max 1 ((series.filterMap id).length / 3) ≤ (series.filterMap id).length := by
      have : (series.filterMap id).length / 3 ≤ (series.filterMap id).length :=
        Nat.div_le_self _ 3
      omega
    have hlen_take :
        ((series.filterMap id).take (max 1 ((series.filterMap id).length / 3))).length
          = max 1 ((series.filterMap id).length / 3) := by
      rw [List.length_take]
      omega
    have hlen_drop :
        ((series.filterMap id).drop
            ((series.filterMap id).length - max 1 ((series.filterMap id).length / 3))).length
          = max 1 ((series.filterMap id).length / 3) := by
      rw [List.length_drop]
      omega
    have hrelflip : ∀ x y : ℚ,
        (if x ≠ 0 then (y - x) / |x| else 0) = (if x = 0 then 0 else (y - x) / |x|) := by
      intro x y
      by_cases h0 : x = 0 <;> simp [h0]
    simp only [_detect_trend, if_neg hnotlt, listMean]
    rw [hlen_take, hlen_drop, hrelflip]
    set n := (series.filterMap id).length with hsn
    set rel :=
      (if ((series.filterMap id).take (max 1 (n / 3))).sum / ((max 1 (n / 3) : ℕ) : ℚ) = 0
       then 0
       else (((series.filterMap id).drop (n - max 1 (n / 3))).sum / ((max 1 (n / 3) : ℕ) : ℚ)
              - ((series.filterMap id).take (max 1 (n / 3))).sum / ((max 1 (n / 3) : ℕ) : ℚ))
            / |((series.filterMap id).take (max 1 (n / 3))).sum / ((max 1 (n / 3) : ℕ) : ℚ)|)
      with hsrel
    by_cases hw : 10 ≤ n ∧ (0.05 : ℚ) ≤ rel
    · rw [if_pos hw]
      refine ⟨⟨fun _ => hw, fun _ => rfl⟩, ⟨fun h => absurd h (by decide), ?_⟩,
        ⟨fun h => absurd h (by decide), fun h => absurd hw h.1⟩⟩
      intro hi
      exfalso
      have := hw.2
      have := hi.2
      linarith
    · rw [if_neg hw]
      by_cases hi : 10 ≤ n ∧ rel ≤ (-0.05 : ℚ)
      · rw [if_pos hi]
        exact ⟨⟨fun h => absurd h (by decide), fun h => absurd h hw⟩,
          ⟨fun _ => hi, fun _ => rfl⟩,
          ⟨fun h => absurd h (by decide), fun h => absurd hi h.2⟩⟩
      · rw [if_neg hi]
        exact ⟨⟨fun h => absurd h (by decide), fun h => absurd h hw⟩,
          ⟨fun h => absurd h (by decide), fun h => absurd h hi⟩,
          ⟨fun _ => ⟨hw, hi⟩, fun _ => rfl⟩⟩

/-- Witness for C6: the strictly increasing 12-value series 1..12 has
first-tercile mean 2.5, last-tercile mean 10.5, relative change 3.2 ≥ 0.05
and at least 10 observations, so the verdict is `worsening`; its mirror is
`improving`; a flat 12-value series is `no_change`. -/
theorem c6_trend_tercile_witness :
    _detect_trend [some 1, some 2, some 3, some 4, some 5, some 6, some 7, some 8,
        some 9, some 10, some 11, some 12] = "worsening"
  ∧ _detect_trend [some 12, some 11, some 10, some 9, some 8, some 7, some 6, some 5,
        some 4, some 3, some 2, some 1] = "improving"
  ∧ _detect_trend [some 7, some 7, some 7, some 7, some 7, some 7, some 7, some 7,
        some 7, some 7, some 7, some 7] = "no_change" := by
  refine ⟨?_, ?_, ?_⟩
  · have h := (c6_trend_tercile [some 1, some 2, some 3, some 4, some 5, some 6, some 7,
        some 8, some 9, some 10, some 11, some 12]).2 12 4 (5/2) (21/2) (16/5)
        (by decide) (by decide) (by decide)
        (by simp [List.filterMap]; norm_num)
        (by simp [List.filterMap]; norm_num)
        (by rw [if_neg (by norm_num : ¬ (5/2 : ℚ) = 0),
              show |(5/2 : ℚ)| = 5/2 from abs_of_pos (by norm_num)]
            norm_num)
    exact h.1.mpr ⟨by norm_num, by norm_num⟩
  · have h := (c6_trend_tercile [some 12, some 11, some 10, some 9, some 8, some 7,
        some 6, some 5, some 4, some 3, some 2, some 1]).2 12 4 (21/2) (5/2) (-16/21)
        (by decide) (by decide) (by decide)
        (by simp [List.filterMap]; norm_num)
        (by simp [List.filterMap]; norm_num)
        (by rw [if_neg (by norm_num : ¬ (21/2 : ℚ) = 0),
              show |(21/2 : ℚ)| = 21/2 from abs_of_pos (by norm_num)]
            norm_num)
    exact h.2.1.mpr ⟨by norm_num, by norm_num⟩
  · have h := (c6_trend_tercile [some 7, some 7, some 7, some 7, some 7, some 7, some 7,
        some 7, some 7, some 7, some 7, some 7]).2 12 4 7 7 0
        (by decide) (by decide) (by decide)
        (by simp [List.filterMap]; norm_num)
        (by simp [List.filterMap]; norm_num)
        (by norm_num)
    exact h.2.2.mpr ⟨by norm_num, by norm_num⟩

theorem countRisingEdges_eq_zip (hazard : ℚ) (l : List (WithBot ℚ)) (p : WithBot ℚ) :
    countRisingEdges (decide ((hazard : WithBot ℚ) < p))
        (l.map fun x => decide ((hazard : WithBot ℚ) < x))
      = ((p :: l).zip l).countP
          fun pr => decide (pr.1 ≤ (hazard : WithBot ℚ) ∧ (hazard : WithBot ℚ) < pr.2) := by
  induction l generalizing p with
  | nil => rfl
  | cons x xs ih =>
    simp only [List.map_cons, countRisingEdges, List.zip_cons_cons, List.countP_cons, ← ih x]
    have hb : (decide ((hazard : WithBot ℚ) < x) && !decide ((hazard : WithBot ℚ) < p))
        = decide (p ≤ (hazard : WithBot ℚ) ∧ (hazard : WithBot ℚ) < x) := by
      by_cases h1 : (hazard : WithBot ℚ) < x <;> by_cases h2 : (hazard : WithBot ℚ) < p <;>
        simp [h1, h2, not_lt.mp, le_of_not_lt]
    rw [hb]
    omega

/-- C7: `hazard_entries` counts rising-edge crossings of the hazard
threshold: pairs of consecutive positions (with a virtual previous value
of −infinity before the first, and missing cells filled with −infinity)
whose previous value is ≤ hazard and whose current value is > hazard; on
`[0,0,600,600,600,0,600]` with hazard 500 it is 2, not 4. -/
theorem c7_hazard_entries (series : List (Option ℚ)) (hazard : ℚ) :
    _count_hazard_entries series hazard
      = (((⊥ : WithBot ℚ) :: fillNegInf series).zip (fillNegInf series)).countP
          (fun pr => decide (pr.1 ≤ (hazard : WithBot ℚ) ∧ (hazard : WithBot ℚ) < pr.2))
  ∧ _count_hazard_entries
        [some 0, some 0, some 600, some 600, some 600, some 0, some 600] 500 = 2 := by
  constructor
  · have h := countRisingEdges_eq_zip hazard (fillNegInf series) ⊥
    have hbot : decide ((hazard : WithBot ℚ) < (⊥ : WithBot ℚ)) = false := by simp
    rw [hbot] at h
    exact h
  · show countRisingEdges false
        ((fillNegInf [some 0, some 0, some 600, some 600, some 600, some 0, some 600]).map
          fun x => decide (((500 : ℚ) : WithBot ℚ) < x)) = 2
    have h0 : decide ((500 : ℚ) < ((0 : ℚ) : WithBot ℚ)) = false := by
      simp only [WithBot.coe_lt_coe, decide_eq_false_iff_not]
      norm_num
    have h6 : decide ((500 : ℚ) < ((600 : ℚ) : WithBot ℚ)) = true := by
      simp only [WithBot.coe_lt_coe, decide_eq_true_eq]
      norm_num
    simp only [fillNegInf, List.map_cons, List.map_nil, h0, h6, countRisingEdges]
    rfl

theorem countP_cellAbove (series : List (Option ℚ)) (safe : ℚ) :
    series.countP (cellAbove safe)
      = (series.filterMap id).countP fun q => decide (safe < q) := by
  induction series with
  | nil => rfl
  | cons x xs ih =>
    cases x <;> simp [cellAbove, List.countP_cons, List.filterMap_cons, ih]

/-- C8: for a series with at least one coercible value,
`percent_above_safe` is the count of non-missing entries strictly above
the safe threshold, divided by the original series length (missing
entries included), as a percentage. -/
theorem c8_percent_above_safe (series : List (Option ℚ)) (safe : ℚ) (hazard : Option ℚ)
    (h : 0 < (series.filterMap id).length) :
    (analyze_pollutant series (some safe) hazard).percent_above_safe
      = some ((((series.filterMap id).countP fun q => decide (safe < q)) : ℚ)
                / ((series.length : ℕ) : ℚ) * 100) := by
  have hn : ¬ ((series.filterMap id).length = 0) := by omega
  have hne : ¬ (series.filterMap id = []) := by
    intro hnil
    rw [hnil] at h
    simp at h
  simp only [analyze_pollutant, if_neg hn, _safe_count, if_neg hne, countP_cellAbove,
    Option.map]

/-- Witness for C8 on `[some 10, none, some 60]` with safe threshold 50:
one of the two non-missing entries is above 50, the original length is 3,
so the reported percentage is 100/3. -/
theorem c8_percent_above_safe_witness :
    (analyze_pollutant [some 10, none, some 60] (some 50) (some 200)).percent_above_safe
      = some (100 / 3 : ℚ) := by
  have h := c8_percent_above_safe [some 10, none, some 60] 50 (some 200) (by decide)
  rw [h]
  have hc : (([some 10, none, some 60].filterMap id).countP
      fun q => decide ((50 : ℚ) < q)) = 1 := by
    simp only [List.filterMap]
    norm_num [List.countP_cons]
  rw [hc]
  norm_num

theorem recsFun_spec (la lp : ℕ) (ha : la ≤ 3) (hp : lp ≤ 3) :
    (3 ≤ (recsFun la lp).length ∧ (recsFun la lp).length ≤ 6 ∧ (recsFun la lp).Nodup)
  ∧ (recsFun la lp).take 3 = _base_recommendations (max la lp)
  ∧ (2 ≤ lp → roadsText ∈ recsFun la lp)
  ∧ (lp < 2 → roadsText ∉ recsFun la lp ∧ altMaskText ∉ recsFun la lp)
  ∧ (2 ≤ la → respText ∈ recsFun la lp ∨ medText ∈ recsFun la lp)
  ∧ (la < 2 → medText ∉ recsFun la lp) := by
  interval_cases la <;> interval_cases lp <;> decide

/-- C9: for every input the recommendation list has 3 to 6 items with no
duplicates; it starts with the 3 base recommendations for the overall
level, the particulate refinements (mask and avoid-roads texts) are
appended only when the particulate sub-level is ≥ Unhealthy, the
medical-action-plan refinement only when the primary sub-level is
≥ Unhealthy, and the list is deduplicated in first-seen order and
truncated at 6. -/
theorem c9_recommendations (a p : Reading) :
    (3 ≤ (interpret a p none none).recommendations.length
      ∧ (interpret a p none none).recommendations.length ≤ 6
      ∧ (interpret a p none none).recommendations.Nodup)
  ∧ (interpret a p none none).recommendations.take 3
      = _base_recommendations (max (_aqi_to_level a) (_pm25_to_level p))
  ∧ (2 ≤ _pm25_to_level p → roadsText ∈ (interpret a p none none).recommendations)
  ∧ (_pm25_to_level p < 2 →
      roadsText ∉ (interpret a p none none).recommendations
      ∧ altMaskText ∉ (interpret a p none none).recommendations)
  ∧ (2 ≤ _aqi_to_level a →
      respText ∈ (interpret a p none none).recommendations
      ∨ medText ∈ (interpret a p none none).recommendations)
  ∧ (_aqi_to_level a < 2 → medText ∉ (interpret a p none none).recommendations) :=
  recsFun_spec (_aqi_to_level a) (_pm25_to_level p)
    (aqi_level_le_three a) (pm25_level_le_three p)

/-- Witness for C9 at concrete inputs: AQI 120 with PM2.5 60 (both
sub-levels ≥ 2) contains both refinement families; AQI 1 with PM2.5 10
(both sub-levels < 2) contains neither. -/
theorem c9_recommendations_witness :
    (roadsText ∈ (interpret (Reading.num 120) (Reading.num 60) none none).recommendations
      ∧ (respText ∈ (interpret (Reading.num 120) (Reading.num 60) none none).recommendations
        ∨ medText ∈ (interpret (Reading.num 120) (Reading.num 60) none none).recommendations))
  ∧ (roadsText ∉ (interpret (Reading.num 1) (Reading.num 10) none none).recommendations
      ∧ medText ∉ (interpret (Reading.num 1) (Reading.num 10) none none).recommendations) := by
  have h1 := c9_recommendations (Reading.num 120) (Reading.num 60)
  have h2 := c9_recommendations (Reading.num 1) (Reading.num 10)
  refine ⟨⟨h1.2.2.1 ?_, h1.2.2.2.2.1 ?_⟩, ⟨(h2.2.2.2.1 ?_).1, h2.2.2.2.2.2 ?_⟩⟩
  · norm_num [_pm25_to_level]
  · norm_num [_aqi_to_level, pyRound]
  · norm_num [_pm25_to_level]
  · norm_num [_aqi_to_level, pyRound]

/-- C10: aggregation over an empty observation set never raises (the
embedding is a total function) and returns total_measurements 0, null
period start and end, null worst moment, and the non-empty fallback
narrative containing the location name. -/
theorem c10_empty_aggregation (city : String) :
    (analyze_city_rows city []).total_measurements = 0
  ∧ (analyze_city_rows city []).dropped_rows = 0
  ∧ (analyze_city_rows city []).period_start = none
  ∧ (analyze_city_rows city []).period_end = none
  ∧ (analyze_city_rows city []).worst_moment = none
  ∧ (analyze_city_rows city []).summary
      = "No valid measurements for " ++ city ++ " in the provided file."
  ∧ (analyze_city_rows city []).summary ≠ ""
  ∧ (∃ pre post, (analyze_city_rows city []).summary = pre ++ city ++ post) := by
  refine ⟨rfl, rfl, rfl, rfl, rfl, rfl, ?_,
    ⟨"No valid measurements for ", " in the provided file.", rfl⟩⟩
  intro hempty
  have hsum : (analyze_city_rows city []).summary
      = "No valid measurements for " ++ city ++ " in the provided file." := rfl
  rw [hsum] at hempty
  have hlen := congrArg String.length hempty
  rw [String.length_append, String.length_append] at hlen
  have h1 : 0 < "No valid measurements for ".length := by decide
  have h2 : "".length = 0 := rfl
  rw [h2] at hlen
  omega

/-- Witness for C10 at a concrete location name. -/
theorem c10_empty_aggregation_witness :
    (analyze_city_rows ("Testville") []).total_measurements = 0
  ∧ (analyze_city_rows ("Testville") []).worst_moment = none
  ∧ (analyze_city_rows ("Testville") []).summary ≠ "" := by
  have h := c10_empty_aggregation ("Testville")
  exact ⟨h.1, h.2.2.2.2.1, h.2.2.2.2.2.2.1⟩

end Oxy
